import Mathlib

/-!
Shallow embedding of the db-storage-service message-driven persistence core.

Relational tables become lists of row structures; timestamps are integer
seconds; the store's UNIQUE/PRIMARY KEY checks and ON CONFLICT clauses are
made explicit on the lists.  Each definition is translated from the named
Python source location (src/services/database.py, src/main.py,
src/models/bot_models.py, src/config.py); the few operations that the
consumer calls but that are absent from src/ are modelled from the spec and
say so in their doc comment.
-/

namespace DbStorage

/-- Review lifecycle states stored in the `words.word_state` column
(src/services/database.py, `__create_words`, default 'NEW'). -/
inductive WordState where
  | NEW
  | REPEATED
  | REINFORCED
  | LEARNED
deriving DecidableEq, Repr

/-- Seconds in one day; postgres `INTERVAL 'n days'` arithmetic is modelled
on integer seconds. -/
def secondsPerDay : Int := 86400

/-- Row of the `users` table (src/services/database.py, `__create_users`). -/
structure UserRow where
  user_id : Int
  username : String
  first_name : String
  camefrom : String
  language : String
  fluency : Int
  topics : List String
  lang_code : String
  is_active : Bool
  blocked_bot : Bool
  last_notified : Int
deriving DecidableEq, Repr

/-- Row of the `words` table (src/services/database.py, `__create_words`). -/
structure WordRow where
  id : Nat
  user_id : Int
  word : String
  part_of_speech : String
  translation : String
  is_public : Bool
  word_state : WordState
  emotion : String
  correct_spelling : Bool
  created_at : Int
deriving DecidableEq, Repr

/-- Row of the `contexts` table, key columns only
(src/services/database.py, `__create_contexts`). -/
structure ContextRow where
  user_id : Int
  word_id : Nat
  context : String
deriving DecidableEq, Repr

/-- Row of the `audios` table, key columns only
(src/services/database.py, `__create_audios`). -/
structure AudioRow where
  user_id : Int
  audio_id : Nat
  audio_url : String
deriving DecidableEq, Repr

/-- Row of the `profiles` table (src/services/database.py,
`__create_profiles`); the DATE column is kept as its ISO text. -/
structure ProfileRow where
  user_id : Int
  nickname : String
  email : String
  birthday : String
  dating : Bool
  gender : Option String
  intro : Option String
  status : String
deriving DecidableEq, Repr

/-- Row of the `locations` table (src/services/database.py,
`__create_locations`). -/
structure LocationRow where
  user_id : Int
  latitude : Option String
  longitude : Option String
  city : Option String
  country : Option String
  timezone : Option String
deriving DecidableEq, Repr

/-- Row of the `payments` table; columns follow the Payment model of
src/models/bot_models.py (the table itself is named in spec section 6);
`until` is a Lean keyword, so that column is spelled `until_`. -/
structure PaymentRow where
  user_id : Int
  amount : ℚ
  period : String
  trial : Bool
  is_active : Bool
  until_ : Int
  currency : String
  payment_id : Option String
deriving DecidableEq, Repr

/-- The relational store: one list per logical table of spec section 6. -/
structure Db where
  users : List UserRow
  profiles : List ProfileRow
  locations : List LocationRow
  words : List WordRow
  contexts : List ContextRow
  audios : List AudioRow
  payments : List PaymentRow
deriving DecidableEq, Repr

/-- The nested `CASE` expression of `DatabaseService.update_word_state`
(src/services/database.py lines 785-808): outer case on `$3 = true`, inner
cases on `word_state`, `ELSE word_state` on both inner cases. -/
def reviewTransition (s : WordState) (correct : Bool) : WordState :=
  if correct then
    match s with
    | .NEW => .REPEATED
    | .REPEATED => .REINFORCED
    | .REINFORCED => .LEARNED
    | s => s
  else
    match s with
    | .REPEATED => .NEW
    | .REINFORCED => .REPEATED
    | .LEARNED => .REINFORCED
    | s => s

/-- `DatabaseService.update_word_state`: the single conditional UPDATE keyed
on `user_id = $1 AND word = $2`, applying the CASE expression to each
matching row. -/
def update_word_state (db : Db) (uid : Int) (w : String) (correct : Bool) : Db :=
  { db with
    words := db.words.map fun r =>
      if r.user_id == uid && r.word == w then
        { r with word_state := reviewTransition r.word_state correct }
      else r }

/-- The WHERE clause of `DatabaseService.get_words_by_user`
(src/services/database.py lines 693-709): `word_state != 'LEARNED'` and
`$1 - created_at >= CASE word_state WHEN 'NEW' THEN INTERVAL '1 days' ...`;
the CASE has no ELSE branch, so a state outside the three listed yields
SQL NULL and the comparison filters the row out. -/
def wordDue (now : Int) (r : WordRow) : Bool :=
  (r.word_state != WordState.LEARNED) &&
    (match r.word_state with
     | .NEW => decide (now - r.created_at ≥ 1 * secondsPerDay)
     | .REPEATED => decide (now - r.created_at ≥ 5 * secondsPerDay)
     | .REINFORCED => decide (now - r.created_at ≥ 14 * secondsPerDay)
     | .LEARNED => false)

/-- `DatabaseService.get_words_by_user` restricted to one `user_id` group:
`SELECT user_id, ARRAY_AGG(DISTINCT word) ... GROUP BY user_id` becomes
the deduplicated list of due words of that user. -/
def get_words_by_user (db : Db) (now : Int) (uid : Int) : List String :=
  ((db.words.filter fun r => r.user_id == uid && wordDue now r).map
    (fun r => r.word)).dedup

/-- Spec-side threshold table, written from the spec's words for the
refinement proof of the due-for-review selector: NEW 1 day, REPEATED 5
days, REINFORCED 14 days (LEARNED is never selected, so its entry is
irrelevant; 0 is a placeholder). -/
def specDueThreshold : WordState → Int
  | .NEW => 1 * secondsPerDay
  | .REPEATED => 5 * secondsPerDay
  | .REINFORCED => 14 * secondsPerDay
  | .LEARNED => 0

/-- Spec-side membership predicate for the due set, written from the
spec's words: a word of the user whose state is not LEARNED and whose
elapsed time since creation meets or exceeds the state threshold. -/
def specDue (db : Db) (now : Int) (uid : Int) (w : String) : Prop :=
  ∃ r ∈ db.words, r.user_id = uid ∧ r.word = w ∧
    r.word_state ≠ WordState.LEARNED ∧
    now - r.created_at ≥ specDueThreshold r.word_state

/-- The parsed `User` pydantic model (src/models/bot_models.py). -/
structure UserIn where
  user_id : Int
  username : String
  camefrom : String
  first_name : String
  language : String
  fluency : Int
  topics : List String
  lang_code : String
deriving DecidableEq, Repr

/-- The parsed `Profile` pydantic model after the handler's birthday
rewrite (src/models/bot_models.py and `add_profile` in src/main.py). -/
structure ProfileIn where
  user_id : Int
  nickname : String
  email : String
  birthday : String
  dating : Bool
  gender : Option String
  intro : Option String
  status : String
deriving DecidableEq, Repr

/-- The parsed `Location` pydantic model (src/models/bot_models.py). -/
structure LocationIn where
  user_id : Int
  latitude : Option String
  longitude : Option String
  city : Option String
  country : Option String
  tzone : Option String
deriving DecidableEq, Repr

/-- The seven application-owned columns that `save_user`'s
`ON CONFLICT (user_id) DO UPDATE` overwrites (src/services/database.py
lines 244-275); `user_id`, `is_active`, `blocked_bot` and `last_notified`
are left as they were. -/
def mutOverwrite (u : UserIn) (r : UserRow) : UserRow :=
  { r with
    username := u.username
    camefrom := u.camefrom
    first_name := u.first_name
    language := u.language
    fluency := u.fluency
    topics := u.topics
    lang_code := u.lang_code }

/-- The freshly inserted `users` row of `save_user`'s INSERT branch: the
eight listed columns from the payload, the remaining three from the table
defaults `is_active TRUE`, `blocked_bot FALSE`, `last_notified NOW()`. -/
def newUserRow (u : UserIn) (now : Int) : UserRow :=
  { user_id := u.user_id
    username := u.username
    first_name := u.first_name
    camefrom := u.camefrom
    language := u.language
    fluency := u.fluency
    topics := u.topics
    lang_code := u.lang_code
    is_active := true
    blocked_bot := false
    last_notified := now }

/-- Per-row effect of the upsert on the `users` list: the one row at the
conflicting key is overwritten, every other row is untouched. -/
def overwriteIf (u : UserIn) (r : UserRow) : UserRow :=
  if r.user_id == u.user_id then mutOverwrite u r else r

/-- `DatabaseService.save_user` (src/services/database.py lines 244-275):
`INSERT INTO users ... ON CONFLICT (user_id) DO UPDATE SET ...`.  `now` is
the store's `NOW()` at execution time. -/
def save_user (db : Db) (u : UserIn) (now : Int) : Db :=
  if db.users.any (fun r => r.user_id == u.user_id) then
    { db with users := db.users.map (overwriteIf u) }
  else
    { db with users := db.users ++ [newUserRow u now] }

/-- `DatabaseService.user_exists` (src/services/database.py lines
663-667): `bool(fetchrow("SELECT 1 FROM users WHERE user_id = $1"))`. -/
def user_exists (db : Db) (uid : Int) : Bool :=
  db.users.any fun r => r.user_id == uid

/-- Modelled from the spec: `DatabaseService.update_user`, called by the
`ADD_USER` handler in src/main.py, is absent from src/services/database.py;
spec section 3 says an `ADD_USER` event performs the full User upsert keyed
on `user_id`, which is exactly `save_user`. -/
def update_user (db : Db) (u : UserIn) (now : Int) : Db :=
  save_user db u now

/-- The `Payment` pydantic defaults (src/models/bot_models.py): amount
199.00, period "trial", trial true, is_active true, currency "RUB",
payment_id None.  The `until` default expression
`datetime.now(tz=config.tz_info) + timedelta(days=3)` sits in a plain
`Field(default=...)`, so it is evaluated exactly once, when the module is
imported: every `Payment` built without an explicit `until` carries the
same frozen value, module-import time + 3 days — `importTime` here — not
the construction time. -/
def paymentDefaults (uid : Int) (importTime : Int) : PaymentRow :=
  { user_id := uid
    amount := 199
    period := "trial"
    trial := true
    is_active := true
    until_ := importTime + 3 * secondsPerDay
    currency := "RUB"
    payment_id := none }

/-- Modelled from the spec: `DatabaseService.create_payment`, called by the
`ADD_USER` and payment handlers in src/main.py, is absent from
src/services/database.py; spec sections 3 and 6 say a Payment row is
created (inserted) in the `payments` table. -/
def create_payment (db : Db) (p : PaymentRow) : Db :=
  { db with payments := db.payments ++ [p] }

/-- `DatabaseService.save_profile` (src/services/database.py lines
277-311): `INSERT INTO profiles ... ON CONFLICT (user_id) DO UPDATE`.
The consumer's `add_profile` handler names the method
`add_users_profile`; this upsert is the profile write of the service. -/
def save_profile (db : Db) (p : ProfileIn) : Db :=
  let row : ProfileRow :=
    { user_id := p.user_id, nickname := p.nickname, email := p.email
      birthday := p.birthday, dating := p.dating, gender := p.gender
      intro := p.intro, status := p.status }
  if db.profiles.any (fun r => r.user_id == p.user_id) then
    { db with profiles := db.profiles.map fun r =>
        if r.user_id == p.user_id then row else r }
  else
    { db with profiles := db.profiles ++ [row] }

/-- `DatabaseService.save_location` (src/services/database.py lines
321-352): `INSERT INTO locations ... ON CONFLICT (user_id) DO UPDATE`. -/
def save_location (db : Db) (l : LocationIn) : Db :=
  let row : LocationRow :=
    { user_id := l.user_id, latitude := l.latitude, longitude := l.longitude
      city := l.city, country := l.country, timezone := l.tzone }
  if db.locations.any (fun r => r.user_id == l.user_id) then
    { db with locations := db.locations.map fun r =>
        if r.user_id == l.user_id then row else r }
  else
    { db with locations := db.locations ++ [row] }

/-- Errors that `DatabaseService.add_word` can raise, plus the store's own
unique-violation error for comparison: `paymentRequired` is the
`PaymentException` of the `is_active` guard; `uniqueViolation` is the
error the store raises on a duplicate `(user_id, word)`; `raisedNone` is
what the except block `raise logger.error(...)` actually raises — the
`None` returned by the logger, i.e. a `TypeError`, not the caught store
error. -/
inductive AddWordError where
  | paymentRequired
  | uniqueViolation
  | raisedNone
deriving DecidableEq, Repr

/-- `DatabaseService.add_word` (src/services/database.py lines 472-507):
fetch `is_active` (SQL NULL for a missing user and FALSE are both falsy,
so both raise `PaymentException`); then try a single-row INSERT into
`words` — the UNIQUE (user_id, word) constraint rejects a duplicate, the
except block catches the store error, logs it, and executes
`raise logger.error(...)`, raising the logger's `None` return value; on
success the optional context and audio rows are inserted sequentially
outside any transaction.  `nextId` is the SERIAL id the store assigns. -/
def add_word (db : Db) (uid : Int) (word pos value : String) (is_public : Bool)
    (context : Option String) (audio : Option String) (nextId : Nat)
    (now : Int) : Except AddWordError Db :=
  let activeOpt := (db.users.find? fun r => r.user_id == uid).map (fun r => r.is_active)
  if activeOpt.getD false = false then
    .error .paymentRequired
  else if db.words.any (fun r => r.user_id == uid && r.word == word) then
    .error .raisedNone
  else
    let row : WordRow :=
      { id := nextId, user_id := uid, word := word, part_of_speech := pos
        translation := value, is_public := is_public, word_state := .NEW
        emotion := "NEUTRAL", correct_spelling := true, created_at := now }
    let db1 := { db with words := db.words ++ [row] }
    let db2 := match context with
      | none => db1
      | some c => { db1 with contexts := db1.contexts ++ [⟨uid, nextId, c⟩] }
    let db3 := match audio with
      | none => db2
      | some a => { db2 with audios := db2.audios ++ [⟨uid, nextId, a⟩] }
    .ok db3

/-- Bool test that `needle` is an initial segment of `hay`. -/
def leadsWith : List Char → List Char → Bool
  | [], _ => true
  | _ :: _, [] => false
  | c :: cs, d :: ds => c == d && leadsWith cs ds

/-- Bool test that `needle` occurs contiguously inside `hay`: the Python
`in` operator on strings, over explicit character lists. -/
def hasSub (needle : List Char) : List Char → Bool
  | [] => leadsWith needle []
  | d :: ds => leadsWith needle (d :: ds) || hasSub needle ds

/-- The characters of the literal `"DELETE"` tested by `delete_word`. -/
def deleteTag : List Char := ['D', 'E', 'L', 'E', 'T', 'E']

/-- The command status the store returns for a DELETE statement:
`"DELETE "` followed by the decimal count of rows deleted (asyncpg's
command tag), as a character list. -/
def pgDeleteStatus (n : Nat) : List Char :=
  deleteTag ++ (' ' :: Nat.toDigits 10 n)

/-- `DatabaseService.delete_word` (src/services/database.py lines
534-539): run the DELETE keyed on `(user_id, id)` and return
`"DELETE" in result`, the substring test on the command status. -/
def delete_word (db : Db) (uid : Int) (word_id : Nat) : Db × Bool :=
  let remaining := db.words.filter fun r => !(r.user_id == uid && r.id == word_id)
  let deleted := db.words.length - remaining.length
  ({ db with words := remaining }, hasSub deleteTag (pgDeleteStatus deleted))

/-- The purpose tags of src/config.py (`PurposeConfig`). -/
def ADD_USER : String := "ADD_USER"

/-- Purpose tag for profile events (src/config.py). -/
def ADD_PROFILE : String := "ADD_PROFILE"

/-- Purpose tag for location events (src/config.py). -/
def ADD_LOCATION : String := "ADD_LOCATION"

/-- Purpose tag for payment events (src/config.py,
`create_payment = 'CREATE_PAYMENT_PURPOSE'`). -/
def CREATE_PAYMENT_PURPOSE : String := "CREATE_PAYMENT_PURPOSE"

/-- The five handler functions defined in src/main.py, as capabilities the
registry can hold.  `create_payment_v1` is the first function registered
under the payment tag (src/main.py lines 65-72, the one that pre-converts
the ISO `until` string); `add_payment` is the second (lines 96-102). -/
inductive HandlerTag where
  | add_user
  | create_payment_v1
  | add_profile
  | add_location
  | add_payment
deriving DecidableEq, Repr

/-- Python dict assignment `purposes[purpose] = wrapper`: replace the
value in place when the key is present, append otherwise (insertion
order is kept, as in a Python dict). -/
def dictInsert (m : List (String × HandlerTag)) (k : String) (v : HandlerTag) :
    List (String × HandlerTag) :=
  if m.any (fun e => e.1 == k) then
    m.map fun e => if e.1 == k then (k, v) else e
  else
    m ++ [(k, v)]

/-- Python dict lookup `purposes.get(purpose)`. -/
def dictGet : List (String × HandlerTag) → String → Option HandlerTag
  | [], _ => none
  | e :: rest, k => if e.1 == k then some e.2 else dictGet rest k

/-- The `purposes` registry after the five `@register_purpose` decorators
of src/main.py run in source order: ADD_USER, CREATE_PAYMENT_PURPOSE
(first payment handler), ADD_PROFILE, ADD_LOCATION, then
CREATE_PAYMENT_PURPOSE again (second payment handler). -/
def purposes : List (String × HandlerTag) :=
  dictInsert
    (dictInsert
      (dictInsert
        (dictInsert
          (dictInsert [] ADD_USER .add_user)
          CREATE_PAYMENT_PURPOSE .create_payment_v1)
        ADD_PROFILE .add_profile)
      ADD_LOCATION .add_location)
    CREATE_PAYMENT_PURPOSE .add_payment

/-- A decoded broker envelope: the purpose tag plus the payload keys that
the handlers read (`data["user"]`, `data["payment"]`, `data["profile"]`,
`data["location"]`); `none` models a missing or unparseable payload, on
which the handler raises. -/
structure Envelope where
  purpose : String
  user : Option UserIn
  payment : Option PaymentRow
  profile : Option ProfileIn
  location : Option LocationIn
deriving DecidableEq, Repr

/-- Run one registered handler of src/main.py on a decoded envelope:
returns the store after the handler plus `some` error message when the
handler raised (missing payload key, bad JSON, etc.).  `add_user` upserts
the user then inserts the default trial payment; both payment handlers
insert the parsed payment; profile and location handlers upsert.
`startup` is the module-import time at which the pydantic defaults were
evaluated; `now` is the processing time the store's NOW() sees. -/
def runHandler (h : HandlerTag) (db : Db) (env : Envelope)
    (startup now : Int) : Db × Option String :=
  match h with
  | .add_user =>
    match env.user with
    | none => (db, some "KeyError: user")
    | some u =>
      (create_payment (update_user db u now) (paymentDefaults u.user_id startup),
       none)
  | .create_payment_v1 =>
    match env.payment with
    | none => (db, some "KeyError: payment")
    | some p => (create_payment db p, none)
  | .add_payment =>
    match env.payment with
    | none => (db, some "KeyError: payment")
    | some p => (create_payment db p, none)
  | .add_profile =>
    match env.profile with
    | none => (db, some "KeyError: profile")
    | some p => (save_profile db p, none)
  | .add_location =>
    match env.location with
    | none => (db, some "KeyError: location")
    | some l => (save_location db l, none)

/-- `handle_new_users` (src/main.py lines 104-119): look the purpose up in
`purposes`; call the handler if one is registered; the `try/except`
swallows and logs any handler error; the `finally` acknowledges on every
exit path.  Result: the store afterwards and whether the message was
acknowledged. -/
def handle_new_users (registry : List (String × HandlerTag)) (db : Db)
    (env : Envelope) (startup now : Int) : Db × Bool :=
  match dictGet registry env.purpose with
  | none => (db, true)
  | some h => ((runHandler h db env startup now).1, true)

/-- The empty store, used for concrete instances. -/
def dbEmpty : Db :=
  { users := [], profiles := [], locations := [], words := [],
    contexts := [], audios := [], payments := [] }

/-- A concrete `words` row of user 7 with a chosen state and creation
time, used for concrete instances. -/
def wordRowAt (st : WordState) (created : Int) : WordRow :=
  { id := 1, user_id := 7, word := "w", part_of_speech := "noun",
    translation := "t", is_public := false, word_state := st,
    emotion := "NEUTRAL", correct_spelling := true, created_at := created }

/-- A store holding exactly one word of user 7 created at time 0. -/
def dbOfWord (st : WordState) : Db :=
  { dbEmpty with words := [wordRowAt st 0] }

/-- A concrete active user row with id 1, used for concrete instances. -/
def userRow1 : UserRow :=
  { user_id := 1, username := "a", first_name := "A", camefrom := "ads",
    language := "en", fluency := 3, topics := ["travel"], lang_code := "en",
    is_active := true, blocked_bot := false, last_notified := 0 }

/-- A concrete word row (user 1, word "cat"), used for concrete
instances. -/
def catRow : WordRow :=
  { id := 1, user_id := 1, word := "cat", part_of_speech := "noun",
    translation := "кот", is_public := false, word_state := .NEW,
    emotion := "NEUTRAL", correct_spelling := true, created_at := 0 }

/-- A store where active user 1 already owns the word "cat". -/
def dbWithCat : Db :=
  { dbEmpty with users := [userRow1], words := [catRow] }

/-- First concrete user payload for the upsert instances (user_id 5). -/
def u1w : UserIn :=
  { user_id := 5, username := "x", camefrom := "a", first_name := "X",
    language := "en", fluency := 1, topics := [], lang_code := "en" }

/-- Second concrete user payload for the upsert instances: same user_id 5,
different mutable fields. -/
def u2w : UserIn :=
  { user_id := 5, username := "y", camefrom := "b", first_name := "Y",
    language := "ru", fluency := 2, topics := ["travel"], lang_code := "ru" }

/-- The spec's end-to-end ADD_USER envelope for user 1, decoded. -/
def envAddUser1 : Envelope :=
  { purpose := ADD_USER,
    user := some { user_id := 1, username := "a", camefrom := "ads",
                   first_name := "A", language := "en", fluency := 3,
                   topics := ["travel"], lang_code := "en" },
    payment := none, profile := none, location := none }

/-- C2: the review-outcome update computes exactly the ladder transition
function — correct: NEW→REPEATED→REINFORCED→LEARNED with LEARNED a fixed
ceiling; incorrect: the exact reverse with NEW a fixed floor; four
consecutive correct outcomes from NEW reach LEARNED and four consecutive
incorrect outcomes from LEARNED return to NEW; and `update_word_state`
applies this function to the stored row keyed by (user_id, word). -/
theorem review_transition_is_exact_ladder :
    (reviewTransition .NEW true = .REPEATED ∧
     reviewTransition .REPEATED true = .REINFORCED ∧
     reviewTransition .REINFORCED true = .LEARNED ∧
     reviewTransition .LEARNED true = .LEARNED) ∧
    (reviewTransition .REPEATED false = .NEW ∧
     reviewTransition .REINFORCED false = .REPEATED ∧
     reviewTransition .LEARNED false = .REINFORCED ∧
     reviewTransition .NEW false = .NEW) ∧
    (fun s => reviewTransition s true)^[4] .NEW = .LEARNED ∧
    (fun s => reviewTransition s false)^[4] .LEARNED = .NEW ∧
    ∀ (db : Db) (uid : Int) (w : String) (c : Bool) (r : WordRow),
      r ∈ db.words → r.user_id = uid → r.word = w →
      { r with word_state := reviewTransition r.word_state c } ∈
        (update_word_state db uid w c).words := by
  refine ⟨by decide, by decide, by decide, by decide, ?_⟩
  intro db uid w c r hmem hu hw
  unfold update_word_state
  exact List.mem_map.mpr ⟨r, hmem, by simp [hu, hw]⟩

/-- Concrete instance of `review_transition_is_exact_ladder`: in a store
holding the NEW word "w" of user 7, a correct review outcome stores the
REPEATED version of that row. -/
theorem review_transition_is_exact_ladder_witness :
    { wordRowAt .NEW 0 with word_state := .REPEATED } ∈
      (update_word_state (dbOfWord .NEW) 7 "w" true).words :=
  review_transition_is_exact_ladder.2.2.2.2 (dbOfWord .NEW) 7 "w" true
    (wordRowAt .NEW 0) (by simp [dbOfWord, dbEmpty]) rfl rfl

/-- C4: every received message is acknowledged — for any registry,
store, envelope and time the consumer's result is acknowledged, and in
particular a handler that raises (here `add_user` on a message missing
its payload key) still leaves the store untouched and the message
acknowledged. -/
theorem handler_failure_still_acknowledges :
    (∀ (registry : List (String × HandlerTag)) (db : Db) (env : Envelope)
       (startup now : Int),
       (handle_new_users registry db env startup now).2 = true) ∧
    (∀ (db : Db) (startup now : Int),
       (runHandler .add_user db ⟨ADD_USER, none, none, none, none⟩
           startup now).2 = some "KeyError: user" ∧
       handle_new_users purposes db ⟨ADD_USER, none, none, none, none⟩
           startup now = (db, true)) := by
  constructor
  · intro registry db env startup now
    unfold handle_new_users
    cases dictGet registry env.purpose <;> rfl
  · intro db startup now
    refine ⟨rfl, ?_⟩
    have h : dictGet purposes ADD_USER = some HandlerTag.add_user := by decide
    simp [handle_new_users, h, runHandler]

/-- C5: every message whose purpose tag has no registered handler in the
startup `purposes` registry is acknowledged and the store is returned
entirely unchanged (zero writes to any table). -/
theorem unknown_purpose_acknowledged_without_writes :
    ∀ (tag : String), dictGet purposes tag = none →
      ∀ (db : Db) (u : Option UserIn) (p : Option PaymentRow)
        (pr : Option ProfileIn) (l : Option LocationIn) (startup now : Int),
        handle_new_users purposes db ⟨tag, u, p, pr, l⟩ startup now =
          (db, true) := by
  intro tag h db u p pr l startup now
  simp [handle_new_users, h]

/-- Concrete instance of `unknown_purpose_acknowledged_without_writes`:
the spec's sample tag `"NOT_A_REAL_PURPOSE"` is unregistered, and a
message carrying it leaves the store unchanged and acknowledged. -/
theorem unknown_purpose_acknowledged_without_writes_witness :
    dictGet purposes "NOT_A_REAL_PURPOSE" = none ∧
    handle_new_users purposes dbEmpty
      ⟨"NOT_A_REAL_PURPOSE", none, none, none, none⟩ 0 0 = (dbEmpty, true) :=
  ⟨by decide,
   unknown_purpose_acknowledged_without_writes "NOT_A_REAL_PURPOSE"
     (by decide) dbEmpty none none none none 0 0⟩

/-- C9: after startup registration, the registry maps
`CREATE_PAYMENT_PURPOSE` to the second-registered handler `add_payment`,
and the first-registered handler `create_payment_v1` (the one that
pre-converts the ISO date string) is resolved for no purpose tag at all. -/
theorem payment_purpose_second_registration_wins :
    dictGet purposes CREATE_PAYMENT_PURPOSE = some HandlerTag.add_payment ∧
    ∀ p : String, dictGet purposes p ≠ some HandlerTag.create_payment_v1 := by
  refine ⟨by decide, ?_⟩
  intro p
  have hreg : purposes =
      [(ADD_USER, .add_user), (CREATE_PAYMENT_PURPOSE, .add_payment),
       (ADD_PROFILE, .add_profile), (ADD_LOCATION, .add_location)] := by decide
  rw [hreg]
  simp only [dictGet]
  split_ifs <;> simp

/-- Initial segments survive appending on the right. -/
theorem leadsWith_append (xs rest : List Char) :
    leadsWith xs (xs ++ rest) = true := by
  induction xs with
  | nil => rfl
  | cons c cs ih => simp [leadsWith, ih]

/-- A list occurs as a substring of itself followed by anything. -/
theorem hasSub_append_self (needle rest : List Char) :
    hasSub needle (needle ++ rest) = true := by
  cases needle with
  | nil =>
    cases rest with
    | nil => rfl
    | cons d ds => simp [hasSub, leadsWith]
  | cons c cs =>
    have h := leadsWith_append (c :: cs) rest
    simp only [List.cons_append] at h ⊢
    simp [hasSub, h]

/-- C10: `delete_word` returns true for every store, user and word id —
whether or not a matching row existed — because the store's command
status always starts with "DELETE" and the result is just the substring
test `"DELETE" in result`. -/
theorem delete_word_always_returns_true :
    ∀ (db : Db) (uid : Int) (word_id : Nat),
      (delete_word db uid word_id).2 = true := by
  intro db uid word_id
  simp only [delete_word, pgDeleteStatus]
  exact hasSub_append_self deleteTag _

/-- C6 (failing input): adding the word "cat" for active user 1 when the
store already holds (1, "cat") does not surface the store's
unique-violation as a Conflict — the except block raises the `None`
returned by `logger.error` instead — though no second row is inserted. -/
theorem duplicate_add_word_raises_none_not_conflict :
    add_word dbWithCat 1 "cat" "noun" "feline" false none none 2 100 =
      .error .raisedNone ∧
    add_word dbWithCat 1 "cat" "noun" "feline" false none none 2 100 ≠
      .error .uniqueViolation ∧
    (dbWithCat.words.filter fun r => r.user_id == 1 && r.word == "cat").length
      = 1 := by
  have h1 : add_word dbWithCat 1 "cat" "noun" "feline" false none none 2 100 =
      .error .raisedNone := rfl
  refine ⟨h1, ?_, by decide⟩
  rw [h1]
  simp

/-- The source's WHERE clause agrees rowwise with the spec's threshold
table. -/
theorem wordDue_iff (now : Int) (r : WordRow) :
    wordDue now r = true ↔
      (r.word_state ≠ WordState.LEARNED ∧
       now - r.created_at ≥ specDueThreshold r.word_state) := by
  cases h : r.word_state <;>
    simp [wordDue, specDueThreshold, h]

/-- C3: the due-for-review selector returns, for every user, exactly the
distinct words with a stored row whose state is not LEARNED and whose
elapsed time since creation meets or exceeds the state threshold (NEW 1
day, REPEATED 5 days, REINFORCED 14 days); at the boundaries, a NEW word
aged 1 day − 1 second is excluded and one aged exactly 1 day is included,
analogously at 5 and 14 days; a LEARNED word is never selected. -/
theorem due_selector_exactly_due_words :
    (∀ (db : Db) (now uid : Int) (w : String),
       w ∈ get_words_by_user db now uid ↔ specDue db now uid w) ∧
    ("w" ∉ get_words_by_user (dbOfWord .NEW) 86399 7 ∧
     "w" ∈ get_words_by_user (dbOfWord .NEW) 86400 7) ∧
    ("w" ∉ get_words_by_user (dbOfWord .REPEATED) 431999 7 ∧
     "w" ∈ get_words_by_user (dbOfWord .REPEATED) 432000 7) ∧
    ("w" ∉ get_words_by_user (dbOfWord .REINFORCED) 1209599 7 ∧
     "w" ∈ get_words_by_user (dbOfWord .REINFORCED) 1209600 7) ∧
    (∀ now : Int, get_words_by_user (dbOfWord .LEARNED) now 7 = []) := by
  refine ⟨?_, ⟨by decide, by decide⟩, ⟨by decide, by decide⟩,
    ⟨by decide, by decide⟩, fun now => rfl⟩
  intro db now uid w
  unfold get_words_by_user specDue
  rw [List.mem_dedup]
  simp only [List.mem_map, List.mem_filter, Bool.and_eq_true, beq_iff_eq]
  constructor
  · rintro ⟨r, ⟨hmem, hu, hdue⟩, rfl⟩
    obtain ⟨hs, ht⟩ := (wordDue_iff now r).mp hdue
    exact ⟨r, hmem, hu, rfl, hs, ht⟩
  · rintro ⟨r, hmem, hu, hw, hs, ht⟩
    exact ⟨r, ⟨hmem, hu, (wordDue_iff now r).mpr ⟨hs, ht⟩⟩, hw⟩

/-- The conditional overwrite never changes the primary key. -/
theorem overwriteIf_user_id (u : UserIn) (r : UserRow) :
    (overwriteIf u r).user_id = r.user_id := by
  unfold overwriteIf mutOverwrite
  split <;> rfl

/-- Key search is unaffected by the conditional overwrite pass. -/
theorem any_key_map_overwriteIf (l : List UserRow) (u : UserIn) (k : Int) :
    ((l.map (overwriteIf u)).any fun r => r.user_id == k) =
      (l.any fun r => r.user_id == k) := by
  induction l with
  | nil => rfl
  | cons r t ih => simp [ih, overwriteIf_user_id]

/-- Two conditional overwrites at the same key collapse to the second. -/
theorem overwriteIf_comp (u1 u2 : UserIn) (h : u1.user_id = u2.user_id)
    (r : UserRow) : overwriteIf u2 (overwriteIf u1 r) = overwriteIf u2 r := by
  unfold overwriteIf
  cases hb : r.user_id == u2.user_id with
  | false =>
    have hb1 : (r.user_id == u1.user_id) = false := by rw [h]; exact hb
    simp [hb, hb1]
  | true =>
    have hb1 : (r.user_id == u1.user_id) = true := by rw [h]; exact hb
    have hid : (mutOverwrite u1 r).user_id = r.user_id := rfl
    simp [hb, hb1, hid, mutOverwrite]

/-- Mapped form of `overwriteIf_comp`. -/
theorem map_overwriteIf_comp (l : List UserRow) (u1 u2 : UserIn)
    (h : u1.user_id = u2.user_id) :
    (l.map (overwriteIf u1)).map (overwriteIf u2) = l.map (overwriteIf u2) := by
  induction l with
  | nil => rfl
  | cons r t ih => simp [overwriteIf_comp u1 u2 h, ih]

/-- When the key is absent the overwrite pass is the identity. -/
theorem map_overwriteIf_of_not_present (l : List UserRow) (u : UserIn)
    (h : (l.any fun r => r.user_id == u.user_id) = false) :
    l.map (overwriteIf u) = l := by
  induction l with
  | nil => rfl
  | cons r t ih =>
    simp only [List.any_cons, Bool.or_eq_false_iff] at h
    simp [overwriteIf, h.1, ih h.2]

/-- The overwrite pass keeps the number of rows at any key. -/
theorem filter_key_map_overwriteIf (l : List UserRow) (u : UserIn) (k : Int) :
    ((l.map (overwriteIf u)).filter fun r => r.user_id == k).length =
      (l.filter fun r => r.user_id == k).length := by
  induction l with
  | nil => rfl
  | cons r t ih =>
    cases hc : r.user_id == k with
    | false =>
      simp [List.filter_cons, overwriteIf_user_id, hc, ih]
    | true =>
      simp [List.filter_cons, overwriteIf_user_id, hc, ih]

/-- The upsert absorbs a preceding upsert at the same key. -/
theorem save_user_absorb (db : Db) (u1 u2 : UserIn) (now : Int)
    (hkey : u1.user_id = u2.user_id) :
    save_user (save_user db u1 now) u2 now = save_user db u2 now := by
  have hpred : (fun r : UserRow => r.user_id == u1.user_id) =
      (fun r : UserRow => r.user_id == u2.user_id) := by
    funext r
    rw [hkey]
  unfold save_user
  rw [hpred]
  cases h : db.users.any (fun r => r.user_id == u2.user_id) with
  | true =>
    have hm : ((db.users.map (overwriteIf u1)).any
        fun r => r.user_id == u2.user_id) = true := by
      rw [any_key_map_overwriteIf]
      exact h
    simp only [h, if_true, hm]
    rw [map_overwriteIf_comp db.users u1 u2 hkey]
  | false =>
    have hnew : ((newUserRow u1 now).user_id == u2.user_id) = true := by
      simp [newUserRow, hkey]
    have hm : ((db.users ++ [newUserRow u1 now]).any
        fun r => r.user_id == u2.user_id) = true := by
      simp [List.any_append, hnew]
    simp only [h, if_false, Bool.false_eq_true, hm, if_true]
    have hid : db.users.map (overwriteIf u2) = db.users := by
      apply map_overwriteIf_of_not_present
      exact h
    have hrow : overwriteIf u2 (newUserRow u1 now) = newUserRow u2 now := by
      unfold overwriteIf
      rw [hnew]
      simp [mutOverwrite, newUserRow, hkey]
    simp [hid, hrow]

/-- After one upsert the key holds exactly one row, given the store's
primary-key invariant. -/
theorem save_user_count_one (db : Db) (u : UserIn) (now : Int)
    (hpk : (db.users.filter fun r => r.user_id == u.user_id).length ≤ 1) :
    ((save_user db u now).users.filter
      fun r => r.user_id == u.user_id).length = 1 := by
  unfold save_user
  cases h : db.users.any (fun r => r.user_id == u.user_id) with
  | true =>
    simp only [h, if_true]
    rw [filter_key_map_overwriteIf]
    obtain ⟨r, hr, hid⟩ := List.any_eq_true.mp h
    have hmem : r ∈ db.users.filter fun r => r.user_id == u.user_id :=
      List.mem_filter.mpr ⟨hr, hid⟩
    have hpos : 0 < (db.users.filter fun r => r.user_id == u.user_id).length :=
      List.length_pos_of_mem hmem
    omega
  | false =>
    simp only [h, Bool.false_eq_true, if_false]
    have hnil : db.users.filter (fun r => r.user_id == u.user_id) = [] := by
      rw [List.filter_eq_nil_iff]
      intro a ha
      have := List.any_eq_false.mp h
      simpa using this a ha
    simp [List.filter_append, hnil, newUserRow]

/-- After one upsert, the row at the key carries the payload's seven
mutable columns. -/
theorem save_user_fields (db : Db) (u : UserIn) (now : Int) :
    ∀ r ∈ (save_user db u now).users, r.user_id = u.user_id →
      r.username = u.username ∧ r.first_name = u.first_name ∧
      r.camefrom = u.camefrom ∧ r.language = u.language ∧
      r.fluency = u.fluency ∧ r.topics = u.topics ∧
      r.lang_code = u.lang_code := by
  unfold save_user
  cases h : db.users.any (fun r => r.user_id == u.user_id) with
  | true =>
    simp only [h, if_true]
    intro r hr hid
    obtain ⟨r0, hr0, rfl⟩ := List.mem_map.mp hr
    rw [overwriteIf_user_id] at hid
    have hc : (r0.user_id == u.user_id) = true := by simpa using hid
    simp [overwriteIf, hc, mutOverwrite]
  | false =>
    simp only [h, Bool.false_eq_true, if_false]
    intro r hr hid
    rcases List.mem_append.mp hr with hl | hr1
    · have := List.any_eq_false.mp h r hl
      simp [hid] at this
    · rw [List.mem_singleton.mp hr1]
      simp [newUserRow]

/-- C8: applying the User upsert twice at the same user_id leaves exactly
one users row at that key whose mutable fields equal the second write's
values, and the two-write chain equals one application of the second
write (last-write-wins absorption). -/
theorem user_upsert_last_write_wins (db : Db) (u1 u2 : UserIn) (now : Int)
    (hkey : u1.user_id = u2.user_id)
    (hpk : (db.users.filter fun r => r.user_id == u2.user_id).length ≤ 1) :
    save_user (save_user db u1 now) u2 now = save_user db u2 now ∧
    ((save_user (save_user db u1 now) u2 now).users.filter
      fun r => r.user_id == u2.user_id).length = 1 ∧
    ∀ r ∈ (save_user (save_user db u1 now) u2 now).users,
      r.user_id = u2.user_id →
        r.username = u2.username ∧ r.first_name = u2.first_name ∧
        r.camefrom = u2.camefrom ∧ r.language = u2.language ∧
        r.fluency = u2.fluency ∧ r.topics = u2.topics ∧
        r.lang_code = u2.lang_code := by
  have habs := save_user_absorb db u1 u2 now hkey
  refine ⟨habs, ?_, ?_⟩
  · rw [habs]
    exact save_user_count_one db u2 now hpk
  · rw [habs]
    exact save_user_fields db u2 now

/-- Concrete instance of `user_upsert_last_write_wins`: both hypotheses
hold for the empty store and the two sample payloads at user_id 5, and
the conclusion follows by applying the theorem there. -/
theorem user_upsert_last_write_wins_witness :
    (u1w.user_id = u2w.user_id ∧
     (dbEmpty.users.filter fun r => r.user_id == u2w.user_id).length ≤ 1) ∧
    (save_user (save_user dbEmpty u1w 0) u2w 0 = save_user dbEmpty u2w 0 ∧
     ((save_user (save_user dbEmpty u1w 0) u2w 0).users.filter
       fun r => r.user_id == u2w.user_id).length = 1 ∧
     ∀ r ∈ (save_user (save_user dbEmpty u1w 0) u2w 0).users,
       r.user_id = u2w.user_id →
         r.username = u2w.username ∧ r.first_name = u2w.first_name ∧
         r.camefrom = u2w.camefrom ∧ r.language = u2w.language ∧
         r.fluency = u2w.fluency ∧ r.topics = u2w.topics ∧
         r.lang_code = u2w.lang_code) :=
  ⟨⟨rfl, by decide⟩,
   user_upsert_last_write_wins dbEmpty u1w u2w 0 rfl (by decide)⟩

/-- After the upsert, the upserted key is present. -/
theorem user_exists_save_user (db : Db) (u : UserIn) (now : Int) :
    user_exists (save_user db u now) u.user_id = true := by
  unfold user_exists save_user
  cases h : db.users.any (fun r => r.user_id == u.user_id) with
  | true =>
    simp only [h, if_true]
    obtain ⟨r, hr, hid⟩ := List.any_eq_true.mp h
    refine List.any_eq_true.mpr ⟨overwriteIf u r, List.mem_map_of_mem _ hr, ?_⟩
    rw [overwriteIf_user_id]
    exact hid
  | false =>
    simp only [h, Bool.false_eq_true, if_false]
    simp [List.any_append, newUserRow]

/-- C1 (counterexample): with module import at time 0 and the spec's
ADD_USER envelope processed at time 1000000 (about 11.6 days later), the
stored Payment row for user 1 carries until = 259200 (import + 3 days),
not now + 3 days = 1259200: the pydantic `until` default is frozen at
import, so the claim's anchoring of until at processing time is false. -/
theorem add_user_until_frozen_at_import_counterexample :
    ((handle_new_users purposes dbEmpty envAddUser1 0 1000000).1.payments.filter
      fun p => p.user_id == 1).length = 1 ∧
    ∀ p ∈ (handle_new_users purposes dbEmpty envAddUser1 0 1000000).1.payments,
      p.user_id = 1 →
        p.until_ = 259200 ∧ p.until_ ≠ 1000000 + 3 * secondsPerDay := by
  decide

/-- C1 (amended): consuming an ADD_USER envelope carrying a valid user
payload with user_id 1 acknowledges the message, makes `user_exists 1`
true, and inserts a Payment row for user 1 with period "trial", amount
199.00, currency "RUB", the trial flag and active flag set, and
until = module-import time + 3 days (the pydantic default, evaluated once
at import — approximately now + 3 days only for messages processed soon
after process start).  `update_user` and `create_payment` are modelled
from the spec, being absent from src/services/database.py. -/
theorem add_user_event_creates_user_and_trial_payment :
    ∀ (db : Db) (startup now : Int) (uname cf fname lang lcode : String)
      (flu : Int) (tops : List String),
      (handle_new_users purposes db
          ⟨ADD_USER, some ⟨1, uname, cf, fname, lang, flu, tops, lcode⟩,
           none, none, none⟩ startup now).2 = true ∧
      user_exists
        (handle_new_users purposes db
          ⟨ADD_USER, some ⟨1, uname, cf, fname, lang, flu, tops, lcode⟩,
           none, none, none⟩ startup now).1 1 = true ∧
      ∃ p ∈ (handle_new_users purposes db
          ⟨ADD_USER, some ⟨1, uname, cf, fname, lang, flu, tops, lcode⟩,
           none, none, none⟩ startup now).1.payments,
        p.user_id = 1 ∧ p.period = "trial" ∧ p.amount = 199 ∧
        p.currency = "RUB" ∧ p.trial = true ∧ p.is_active = true ∧
        p.until_ = startup + 3 * secondsPerDay := by
  intro db startup now uname cf fname lang lcode flu tops
  have hlook : dictGet purposes ADD_USER = some HandlerTag.add_user := by
    decide
  have hrun : handle_new_users purposes db
      ⟨ADD_USER, some ⟨1, uname, cf, fname, lang, flu, tops, lcode⟩,
       none, none, none⟩ startup now =
      (create_payment
        (update_user db ⟨1, uname, cf, fname, lang, flu, tops, lcode⟩ now)
        (paymentDefaults 1 startup), true) := by
    unfold handle_new_users
    rw [show (⟨ADD_USER, some ⟨1, uname, cf, fname, lang, flu, tops, lcode⟩,
        none, none, none⟩ : Envelope).purpose = ADD_USER from rfl]
    rw [hlook]
    rfl
  rw [hrun]
  refine ⟨rfl, ?_, ?_⟩
  · have hu : user_exists
        (update_user db ⟨1, uname, cf, fname, lang, flu, tops, lcode⟩ now) 1 =
        true :=
      user_exists_save_user db ⟨1, uname, cf, fname, lang, flu, tops, lcode⟩ now
    simpa [create_payment, user_exists] using hu
  · refine ⟨paymentDefaults 1 startup, ?_, rfl, rfl, rfl, rfl, rfl, rfl, rfl⟩
    simp [create_payment]

end DbStorage
